import Mathlib

/-!
Shallow embedding of the ScannerTrigger demo script (src/demo.py).

The script is straight-line orchestration: a configuration dialog, window and
stimulus setup, a device-settings dispatch keyed by a string, construction and
opening of an external trigger object, a blocking wait for the first trigger,
a polling loop bounded by an escape key and a 100 second wall-clock ceiling,
and post-loop descriptive statistics plus a histogram.

Modelling conventions:
  - times are exact rationals; NumPy floating arithmetic is modelled exactly,
    except that the histogram bin-count expression ceil of 4 times the cube
    root of n is abstracted to its integer argument n, recorded on the
    histogram event, since only which length feeds it is at issue;
  - the external ScannerTrigger library is an environment: the outcomes of
    create/open and waitForTrigger and the per-iteration results of
    getTrigger are inputs to the model. Per the script docstring, waitForTrigger
    with skip d discards the first d triggers and accepts the next one;
  - PsychoPy log entries are buffered and only become visible output at an
    explicit flush, as the script itself assumes when its handlers flush
    before printing;
  - a raised exception that no handler catches ends the run with an uncaught
    outcome; core.quit ends it with a quiet termination outcome.
-/

namespace ScannerTriggerDemo

/-- Device choice string for the keyboard branch. -/
def kbStr : String := "keyboard"

/-- Device choice string for the serial branch. -/
def serialStr : String := "serial"

/-- Device choice string for the parallel branch. -/
def parallelStr : String := "parallel"

/-- Device choice string for the cedrus branch. -/
def cedrusStr : String := "cedrus"

/-- Device choice string for the launchscan branch. -/
def launchscanStr : String := "launchscan"

/-- Device choice string for the dummy branch. -/
def dummyStr : String := "dummy"

/-- Message of the ValueError raised for an unrecognized port type. -/
def portErrMsg : String := "The selected Port type does not exist!"

/-- Values stored in a device settings dictionary (MR_settings in demo.py). -/
inductive SettingVal where
  | str (s : String)
  | int (n : ℤ)
  | bool (b : Bool)
  | edgeRising
  | dict (entries : List (String × SettingVal))

/-- A device settings dictionary: ordered key-value pairs. -/
abbrev MRSettings := List (String × SettingVal)

/-- Keyboard specific settings (demo.py lines 126-131). -/
def keyboardSettings : MRSettings :=
  [("keyList", SettingVal.str ("t")),
   ("maxWait", SettingVal.int 9999999)]

/-- Dummy specific settings (demo.py lines 132-136). -/
def dummySettings : MRSettings :=
  [("tr", SettingVal.int 1)]

/-- Serial port specific settings (demo.py lines 137-143). -/
def serialSettings : MRSettings :=
  [("port", SettingVal.str ("COM5")),
   ("baudrate", SettingVal.int 9600),
   ("sync", SettingVal.str ("5"))]

/-- Parallel port specific settings (demo.py lines 144-150). -/
def parallelSettings : MRSettings :=
  [("address", SettingVal.str ("0x0378")),
   ("pin", SettingVal.int 10),
   ("edge", SettingVal.edgeRising)]

/-- Cedrus specific settings (demo.py lines 151-156). -/
def cedrusSettings : MRSettings :=
  [("devicenr", SettingVal.int 0),
   ("sync", SettingVal.int 4)]

/-- LaunchScan specific settings (demo.py lines 157-171); the nested settings
dict embeds the converted scan-skip count. -/
def launchscanSettings (dummyScans : ℤ) : MRSettings :=
  [("wait_msg", SettingVal.str ("Waiting for scanner")),
   ("esc_key", SettingVal.str ("escape")),
   ("log", SettingVal.bool true),
   ("wait_timeout", SettingVal.int 100),
   ("settings", SettingVal.dict
      [("TR", SettingVal.int 1),
       ("volumes", SettingVal.int 100),
       ("sync", SettingVal.str ("t")),
       ("skip", SettingVal.int dummyScans),
       ("sound", SettingVal.bool false)])]

/-- The device dispatch of demo.py lines 126-173: an if/elif chain on the
portType string, falling through to a raised ValueError. -/
def selectMRSettings (portType : String) (dummyScans : ℤ) :
    Except String MRSettings :=
  if portType = kbStr then Except.ok keyboardSettings
  else if portType = dummyStr then Except.ok dummySettings
  else if portType = serialStr then Except.ok serialSettings
  else if portType = parallelStr then Except.ok parallelSettings
  else if portType = cedrusStr then Except.ok cedrusSettings
  else if portType = launchscanStr then Except.ok (launchscanSettings dummyScans)
  else Except.error portErrMsg

/-- The port type strings recognized by the dispatch, in dispatch order. -/
def recognizedPortTypes : List String :=
  [kbStr, dummyStr, serialStr, parallelStr, cedrusStr, launchscanStr]

/-- Whether an Except value is a success. -/
def exceptOk {ε α : Type} : Except ε α → Bool
  | Except.ok _ => true
  | Except.error _ => false

/-- A field of the startup configuration dialog: either a dropdown drawn from a
fixed list of choices, or a text field initialized from an integer. -/
inductive DlgField where
  | choices (options : List String)
  | intDefault (n : ℤ)

/-- Key of the triggering-device dialog field. -/
def trigKey : String := "triggering"

/-- Key of the scan-skip dialog field. -/
def skipKey : String := "skip scans"

/-- Title of the experiment dialog (demo.py line 56). -/
def expName : String := "Demo ScannerTrigger"

/-- The expInfo dictionary handed to DlgFromDict (demo.py lines 57-63):
exactly two fields, the device dropdown and the scan-skip count. -/
def expInfo : List (String × DlgField) :=
  [(trigKey, DlgField.choices
      [kbStr, serialStr, parallelStr, cedrusStr, launchscanStr, dummyStr]),
   (skipKey, DlgField.intDefault 0)]

/-- Value of a nonempty all-digit character list, none otherwise. -/
def digitsToNat (cs : List Char) : Option ℕ :=
  if cs.isEmpty || !(cs.all Char.isDigit) then none
  else some (cs.foldl (fun acc c => acc * 10 + (c.toNat - 48)) 0)

/-- The Python int builtin applied to the string the dialog returns for the
scan-skip field (demo.py line 124): an optional sign followed by digits;
surrounding whitespace and underscore separators are not modelled. -/
def pyInt (s : String) : Option ℤ :=
  match s.toList with
  | '-' :: rest => (digitsToNat rest).map (fun n => -(n : ℤ))
  | '+' :: rest => (digitsToNat rest).map (fun n => (n : ℤ))
  | cs => (digitsToNat cs).map (fun n => (n : ℤ))

/-- Environment of one polling-loop iteration: the escape-key poll and the
timeOutClock reading made in the while condition, and the result of the
st.getTrigger poll made at the end of the body (trig true means a new trigger
was observed, with trigTime the new st.triggerTime). -/
structure LoopStep where
  escPressed : Bool
  clockTime : ℚ
  trig : Bool
  trigTime : ℚ
deriving DecidableEq

/-- Mutable state of the polling loop of demo.py lines 231-247. -/
structure LoopState where
  prevTriggerTime : ℚ
  triggerTime : ℚ
  deltas : List ℚ
  triggered : Bool
deriving DecidableEq

/-- The while condition of demo.py line 234, negated: the loop stops when the
escape key was pressed or the timeOutClock reached 100 seconds. -/
def exitCond (s : LoopStep) : Bool :=
  s.escPressed || !(decide (s.clockTime < (100 : ℚ)))

/-- One execution of the loop body (demo.py lines 235-247): if a trigger is
pending, append the inter-trigger delta and advance prevTriggerTime; then
poll getTrigger. -/
def loopIter (st : LoopState) (s : LoopStep) : LoopState :=
  let st1 :=
    if st.triggered then
      { st with
        deltas := st.deltas ++ [st.triggerTime - st.prevTriggerTime],
        prevTriggerTime := st.triggerTime }
    else st
  { st1 with
    triggered := s.trig,
    triggerTime := if s.trig then s.trigTime else st1.triggerTime }

/-- Run the polling loop over a finite trace of iteration environments.
Returns the final state and whether the while condition fired within the
trace (false means the trace was exhausted with the loop still running). -/
def runLoop (st : LoopState) : List LoopStep → LoopState × Bool
  | [] => (st, false)
  | s :: rest => if exitCond s then (st, true) else runLoop (loopIter st s) rest

/-- Loop state at demo.py lines 231-232: prevTriggerTime is initialized to the
current st.triggerTime, no deltas collected yet, triggered holds the value
returned by waitForTrigger. -/
def initLoopState (t0 : ℚ) (triggered : Bool) : LoopState :=
  { prevTriggerTime := t0, triggerTime := t0, deltas := [], triggered := triggered }

/-- An iteration environment in which getTrigger observes a new trigger at
time t and neither exit condition holds. -/
def mkTrigStep (t : ℚ) : LoopStep :=
  { escPressed := false, clockTime := 0, trig := true, trigTime := t }

/-- An iteration environment with no new trigger and no exit condition. -/
def idleStep : LoopStep :=
  { escPressed := false, clockTime := 0, trig := false, trigTime := 0 }

/-- An iteration environment in which the escape key was pressed. -/
def escStep : LoopStep :=
  { escPressed := true, clockTime := 0, trig := false, trigTime := 0 }

/-- A loop trace in which getTrigger delivers the remaining device triggers
one per iteration, every delivered trigger is processed by a following
iteration, and the escape key then ends the loop. -/
def stepsForTriggers (rem : List ℚ) : List LoopStep :=
  rem.map mkTrigStep ++ [idleStep, escStep]

/-- NumPy mean of a rational list: none models the nan of an empty mean. -/
def npMean (xs : List ℚ) : Option ℚ :=
  if xs.length = 0 then none else some (xs.sum / xs.length)

/-- NumPy population variance; the logged standard deviation of demo.py line
255 is its square root. None models the nan of an empty array. -/
def npVar (xs : List ℚ) : Option ℚ :=
  match npMean xs with
  | none => none
  | some m => some (((xs.map (fun x => (x - m) ^ 2)).sum) / xs.length)

/-- One buffered log line of the DATA OUTPUT section (demo.py lines 254-257).
The standard deviation line is recorded through the variance, of which the
printed value is the square root; none stands for nan. -/
inductive LogEntry where
  | meanDelta (v : Option ℚ)
  | stdDeltaSq (v : Option ℚ)
  | maxDelta (v : ℚ)
  | minDelta (v : ℚ)
deriving DecidableEq

/-- Externally visible events of one script run, in order. The plotHist event
records the plotted data and the array length fed to the bin-count
expression of demo.py line 261. -/
inductive OutEvent where
  | showDialog
  | createWindow
  | createdTrigger
  | drawStim (txt : String)
  | printed (s : String)
  | waitedForTrigger (skip : ℤ)
  | logFlushed (entries : List LogEntry)
  | plotHist (data : List ℚ) (lenForBins : ℕ)
  | closedTrigger
  | closedWindow
  | quit
deriving DecidableEq

/-- How one script run ends. -/
inductive Outcome where
  | quitCancelled
  | quitHandled (err : String)
  | uncaught (err : String)
  | quitNormal
deriving DecidableEq

/-- Result of one script run: the visible events, the log entries still
buffered when the run ended, and how it ended. -/
structure ScriptResult where
  events : List OutEvent
  pendingLogs : List LogEntry
  outcome : Outcome
deriving DecidableEq

/-- External inputs to one script run: the dialog outcome and field values,
the behaviour of the external trigger library at its three call sites, and
the per-iteration loop environment. -/
structure Env where
  dlgOK : Bool
  triggering : String
  skipRaw : String
  createOpenErr : Option String
  waitErr : Option String
  waitReturns : Bool
  firstTriggerTime : ℚ
  steps : List LoopStep

/-- A scan-skip field value of zero, as the dialog default shows it. -/
def zeroStr : String := "0"

/-- A scan-skip field value of three. -/
def threeStr : String := "3"

/-- A device string outside the recognized set. -/
def fooStr : String := "foo"

/-- A sample error message raised by the external trigger library. -/
def boomStr : String := "boom"

/-- Error text printed by both exception handlers (demo.py lines 204, 228). -/
def errMsg (e : String) : String := "ScannerTrigger Error: " ++ e

/-- Message of the ValueError raised by int on a non-numeric string. -/
def intErrMsg (s : String) : String :=
  "invalid literal for int() with base 10: " ++ s

/-- Message of the ValueError raised by NumPy max on an empty array. -/
def reduceErrMsg : String :=
  "zero-size array to reduction operation maximum which has no identity"

/-- Text printed before the blocking wait (demo.py line 222). -/
def waitingMsg : String := "Waiting for the Trigger"

/-- Text of the wait-for-scanner stimulus (demo.py line 91). -/
def waitStimText : String := "Wait for trigger..."

/-- The whole script run of demo.py as a function of its environment:
dialog, window and stimuli, scan-skip conversion, device dispatch, guarded
trigger creation and opening, guarded blocking wait, polling loop, and the
DATA OUTPUT section with its statistics and histogram. -/
def runScript (env : Env) : ScriptResult :=
  if env.dlgOK then
    match pyInt env.skipRaw with
    | none =>
      { events := [OutEvent.showDialog, OutEvent.createWindow],
        pendingLogs := [],
        outcome := Outcome.uncaught (intErrMsg env.skipRaw) }
    | some dummyScans =>
      match selectMRSettings env.triggering dummyScans with
      | Except.error e =>
        { events := [OutEvent.showDialog, OutEvent.createWindow],
          pendingLogs := [],
          outcome := Outcome.uncaught e }
      | Except.ok _settings =>
        match env.createOpenErr with
        | some e =>
          { events := [OutEvent.showDialog, OutEvent.createWindow,
                       OutEvent.logFlushed [], OutEvent.printed (errMsg e),
                       OutEvent.quit],
            pendingLogs := [],
            outcome := Outcome.quitHandled e }
        | none =>
          let ev1 := [OutEvent.showDialog, OutEvent.createWindow,
                      OutEvent.createdTrigger, OutEvent.drawStim waitStimText,
                      OutEvent.printed waitingMsg,
                      OutEvent.waitedForTrigger dummyScans]
          match env.waitErr with
          | some e =>
            { events := ev1 ++ [OutEvent.logFlushed [],
                                OutEvent.printed (errMsg e), OutEvent.quit],
              pendingLogs := [],
              outcome := Outcome.quitHandled e }
          | none =>
            let ev2 := ev1 ++ [OutEvent.logFlushed []]
            let arr :=
              ((runLoop (initLoopState env.firstTriggerTime env.waitReturns)
                  env.steps).1).deltas
            match arr.drop 1 with
            | [] =>
              { events := ev2,
                pendingLogs := [LogEntry.meanDelta none,
                                LogEntry.stdDeltaSq none],
                outcome := Outcome.uncaught reduceErrMsg }
            | d :: ds =>
              { events := ev2 ++
                  [OutEvent.logFlushed
                     [LogEntry.meanDelta (npMean (d :: ds)),
                      LogEntry.stdDeltaSq (npVar (d :: ds)),
                      LogEntry.maxDelta (ds.foldl max d),
                      LogEntry.minDelta (ds.foldl min d)],
                   OutEvent.plotHist (d :: ds) arr.length,
                   OutEvent.closedTrigger, OutEvent.closedWindow,
                   OutEvent.quit],
                pendingLogs := [],
                outcome := Outcome.quitNormal }
  else
    { events := [OutEvent.showDialog, OutEvent.quit],
      pendingLogs := [],
      outcome := Outcome.quitCancelled }

/-- An environment for an unremarkable run: dialog accepted, keyboard device,
zero scans skipped, external library succeeds, first trigger at 2 seconds,
and an empty loop trace. -/
def baseEnv : Env :=
  { dlgOK := true, triggering := kbStr, skipRaw := zeroStr,
    createOpenErr := none, waitErr := none, waitReturns := true,
    firstTriggerTime := 2, steps := [] }

/-- A run whose configuration dialog was cancelled. -/
def envCancel : Env := { baseEnv with dlgOK := false }

/-- A run in which trigger creation or opening raises. -/
def envCreateErr : Env := { baseEnv with createOpenErr := some boomStr }

/-- A run configured with an unrecognized device string. -/
def envUnknown : Env := { baseEnv with triggering := fooStr }

/-- A run in which the loop observes one further trigger at 3 seconds and is
then ended by the escape key. -/
def envStats : Env := { baseEnv with steps := stepsForTriggers [3] }

/-- A run whose loop is ended by escape before processing any trigger. -/
def envEmpty : Env := { baseEnv with steps := [escStep] }

/-- A run with three scans to skip. -/
def envSkip3 : Env :=
  { baseEnv with skipRaw := threeStr, steps := stepsForTriggers [3] }

end ScannerTriggerDemo

namespace ScannerTriggerDemo

/-- The negated while condition holds exactly when escape was pressed or the
timeOutClock reached 100 seconds. -/
theorem exitCond_iff (s : LoopStep) :
    exitCond s = true ↔ (s.escPressed = true ∨ (100 : ℚ) ≤ s.clockTime) := by
  simp [exitCond, not_lt]

/-- An idle iteration environment does not end the loop. -/
theorem exitCond_idleStep : exitCond idleStep = false := by
  simp [exitCond, idleStep]

/-- A trigger-delivering iteration environment does not end the loop. -/
theorem exitCond_mkTrigStep (t : ℚ) : exitCond (mkTrigStep t) = false := by
  simp [exitCond, mkTrigStep]

/-- An escape-key iteration environment ends the loop. -/
theorem exitCond_escStep : exitCond escStep = true := by
  simp [exitCond, escStep]

/-- The loop only ever appends to the delta array. -/
theorem runLoop_deltas_extend (steps : List LoopStep) (st : LoopState) :
    ∃ suf, ((runLoop st steps).1).deltas = st.deltas ++ suf := by
  induction steps generalizing st with
  | nil => exact ⟨[], by simp [runLoop]⟩
  | cons s rest ih =>
    cases hec : exitCond s with
    | true => exact ⟨[], by simp [runLoop, hec]⟩
    | false =>
      obtain ⟨suf, hsuf⟩ := ih (loopIter st s)
      have hrun : runLoop st (s :: rest) = runLoop (loopIter st s) rest := by
        simp [runLoop, hec]
      by_cases ht : st.triggered
      · refine ⟨(st.triggerTime - st.prevTriggerTime) :: suf, ?_⟩
        rw [hrun, hsuf]
        simp [loopIter, ht]
      · refine ⟨suf, ?_⟩
        rw [hrun, hsuf]
        simp [loopIter, ht]

/-- On a trace that delivers the remaining triggers one per iteration and
processes each of them, the loop appends one delta per remaining trigger plus
one for the pending first trigger. -/
theorem runLoop_stepsForTriggers_deltas (rem : List ℚ) (st : LoopState)
    (h : st.triggered = true) :
    (((runLoop st (stepsForTriggers rem)).1).deltas).length
      = st.deltas.length + rem.length + 1 := by
  induction rem generalizing st with
  | nil =>
    rw [show stepsForTriggers ([] : List ℚ) = [idleStep, escStep] from rfl]
    rw [show runLoop st [idleStep, escStep]
          = runLoop (loopIter st idleStep) [escStep] from by
        simp [runLoop, exitCond_idleStep]]
    rw [show runLoop (loopIter st idleStep) [escStep]
          = (loopIter st idleStep, true) from by
        simp [runLoop, exitCond_escStep]]
    simp [loopIter, h]
  | cons t ts ih =>
    have hstep : stepsForTriggers (t :: ts) = mkTrigStep t :: stepsForTriggers ts := by
      simp [stepsForTriggers]
    rw [hstep]
    rw [show runLoop st (mkTrigStep t :: stepsForTriggers ts)
          = runLoop (loopIter st (mkTrigStep t)) (stepsForTriggers ts) from by
        simp [runLoop, exitCond_mkTrigStep]]
    rw [ih (loopIter st (mkTrigStep t)) (by simp [loopIter, mkTrigStep])]
    simp [loopIter, h]
    omega

/-- C1 counterexample: a loop run that observes exactly one trigger in total
(the accepted first trigger, with zero skipped scans) and is then ended by
the escape key yields a delta array of length one, while the claim computes
(1 - 1) - 0 = 0 entries: the first accepted trigger itself appends a
(zero) delta. -/
theorem c1_counterexample :
    (((runLoop (initLoopState 5 true) [idleStep, escStep]).1).deltas).length
      ≠ 1 - 1 - 0 := by
  decide

/-- C1 (amended): in a run of the polling loop in which the initial wait
accepted trigger number skip (zero based) of the device trigger sequence and
every subsequently observed trigger is processed before the loop exits, the
delta array has length equal to the number of triggers observed minus the
skipped scans: each accepted trigger, including the first, appends exactly
one entry, and skipped leading triggers contribute no entries. -/
theorem c1_delta_array_length (trigs : List ℚ) (skip : ℕ)
    (h : skip < trigs.length) :
    (((runLoop (initLoopState (trigs.getD skip 0) true)
        (stepsForTriggers (trigs.drop (skip + 1)))).1).deltas).length
      = trigs.length - skip := by
  rw [runLoop_stepsForTriggers_deltas (trigs.drop (skip + 1))
        (initLoopState (trigs.getD skip 0) true) rfl]
  simp [initLoopState]
  omega

/-- Witness for the amended C1 at the concrete trigger sequence [2, 3] with
no skipped scans: two entries are collected. -/
theorem c1_delta_array_length_witness :
    (((runLoop (initLoopState (([(2 : ℚ), 3]).getD 0 0) true)
        (stepsForTriggers (([(2 : ℚ), 3]).drop (0 + 1)))).1).deltas).length
      = ([(2 : ℚ), 3]).length - 0 :=
  c1_delta_array_length [2, 3] 0 (by decide)

/-- C4: the polling loop ends exactly when some polled iteration environment
reports the escape key or a timeOutClock reading of at least 100 seconds,
and the loop processes precisely the maximal prefix of iterations on which
neither holds, each such iteration being one poll of the trigger, the escape
key, and the clock. -/
theorem c4_polling_loop_termination (st : LoopState) (steps : List LoopStep) :
    ((runLoop st steps).2 = true ↔
      ∃ s ∈ steps, s.escPressed = true ∨ (100 : ℚ) ≤ s.clockTime) ∧
    (runLoop st steps).1 =
      List.foldl loopIter st (steps.takeWhile fun s => !exitCond s) := by
  induction steps generalizing st with
  | nil => simp [runLoop]
  | cons s rest ih =>
    cases hec : exitCond s with
    | true =>
      constructor
      · constructor
        · intro _
          exact ⟨s, List.mem_cons_self s rest, (exitCond_iff s).mp hec⟩
        · intro _
          simp [runLoop, hec]
      · simp [runLoop, hec, List.takeWhile]
    | false =>
      have hs : ¬(s.escPressed = true ∨ (100 : ℚ) ≤ s.clockTime) := by
        intro hc
        have hx := (exitCond_iff s).mpr hc
        rw [hec] at hx
        cases hx
      have hrun : runLoop st (s :: rest) = runLoop (loopIter st s) rest := by
        simp [runLoop, hec]
      obtain ⟨ih1, ih2⟩ := ih (loopIter st s)
      constructor
      · rw [hrun, ih1]
        simp [hs]
      · rw [hrun, ih2]
        simp [List.takeWhile, hec]

/-- C10: cancelling the startup dialog ends the run at once: the result is
exactly the dialog followed by the quiet quit, so no stimulus window is
created, no trigger object is constructed, and no wait is performed. -/
theorem c10_dialog_cancel_quits (env : Env) (h : env.dlgOK = false) :
    runScript env =
      { events := [OutEvent.showDialog, OutEvent.quit], pendingLogs := [],
        outcome := Outcome.quitCancelled } ∧
    OutEvent.createWindow ∉ (runScript env).events ∧
    OutEvent.createdTrigger ∉ (runScript env).events ∧
    ∀ d : ℤ, OutEvent.waitedForTrigger d ∉ (runScript env).events := by
  have he : runScript env =
      { events := [OutEvent.showDialog, OutEvent.quit], pendingLogs := [],
        outcome := Outcome.quitCancelled } := by
    simp [runScript, h]
  refine ⟨he, ?_, ?_, ?_⟩
  · rw [he]; simp
  · rw [he]; simp
  · intro d; rw [he]; simp

/-- Witness for C10: the concrete cancelled environment. -/
theorem c10_dialog_cancel_quits_witness :
    runScript envCancel =
      { events := [OutEvent.showDialog, OutEvent.quit], pendingLogs := [],
        outcome := Outcome.quitCancelled } ∧
    OutEvent.createWindow ∉ (runScript envCancel).events ∧
    OutEvent.createdTrigger ∉ (runScript envCancel).events ∧
    OutEvent.waitedForTrigger 0 ∉ (runScript envCancel).events := by
  have h := c10_dialog_cancel_quits envCancel rfl
  exact ⟨h.1, h.2.1, h.2.2.1, h.2.2.2 0⟩

/-- C2: a run ends with the handled flush-print-quit exit exactly when the
configuration stages succeeded and either trigger creation/opening or the
initial wait raised; in that case the visible events end with the log flush,
the printed error message, and the quit, with no retry following. -/
theorem c2_guarded_failure_points (env : Env) (e : String) :
    ((runScript env).outcome = Outcome.quitHandled e ↔
      (env.dlgOK = true ∧
       (∃ d ms, pyInt env.skipRaw = some d ∧
          selectMRSettings env.triggering d = Except.ok ms) ∧
       (env.createOpenErr = some e ∨
        (env.createOpenErr = none ∧ env.waitErr = some e)))) ∧
    ((runScript env).outcome = Outcome.quitHandled e →
      ∃ pre, (runScript env).events =
        pre ++ [OutEvent.logFlushed [], OutEvent.printed (errMsg e),
                OutEvent.quit]) := by
  cases hdlg : env.dlgOK with
  | false =>
    constructor
    · simp [runScript, hdlg]
    · intro hc
      simp [runScript, hdlg] at hc
  | true =>
    cases hp : pyInt env.skipRaw with
    | none =>
      constructor
      · simp [runScript, hdlg, hp]
      · intro hc
        simp [runScript, hdlg, hp] at hc
    | some d =>
      cases hsel : selectMRSettings env.triggering d with
      | error m =>
        constructor
        · simp [runScript, hdlg, hp, hsel]
        · intro hc
          simp [runScript, hdlg, hp, hsel] at hc
      | ok ms =>
        cases hco : env.createOpenErr with
        | some e2 =>
          constructor
          · simp [runScript, hdlg, hp, hsel, hco]
          · intro hc
            have he2 : e2 = e := by
              simpa [runScript, hdlg, hp, hsel, hco] using hc
            subst he2
            refine ⟨[OutEvent.showDialog, OutEvent.createWindow], ?_⟩
            simp [runScript, hdlg, hp, hsel, hco]
        | none =>
          cases hw : env.waitErr with
          | some e2 =>
            constructor
            · simp [runScript, hdlg, hp, hsel, hco, hw]
            · intro hc
              have he2 : e2 = e := by
                simpa [runScript, hdlg, hp, hsel, hco, hw] using hc
              subst he2
              refine ⟨[OutEvent.showDialog, OutEvent.createWindow,
                       OutEvent.createdTrigger, OutEvent.drawStim waitStimText,
                       OutEvent.printed waitingMsg,
                       OutEvent.waitedForTrigger d], ?_⟩
              simp [runScript, hdlg, hp, hsel, hco, hw]
          | none =>
            cases harr : (((runLoop
                (initLoopState env.firstTriggerTime env.waitReturns)
                env.steps).1).deltas).drop 1 with
            | nil =>
              constructor
              · simp [runScript, hdlg, hp, hsel, hco, hw, harr]
              · intro hc
                simp [runScript, hdlg, hp, hsel, hco, hw, harr] at hc
            | cons x xs =>
              constructor
              · simp [runScript, hdlg, hp, hsel, hco, hw, harr]
              · intro hc
                simp [runScript, hdlg, hp, hsel, hco, hw, harr] at hc

/-- Witness for C2: with trigger creation raising the sample error, the run
ends handled, the events closing with flush, printed error, and quit. -/
theorem c2_guarded_failure_points_witness :
    (runScript envCreateErr).outcome = Outcome.quitHandled boomStr ∧
    ∃ pre, (runScript envCreateErr).events =
      pre ++ [OutEvent.logFlushed [], OutEvent.printed (errMsg boomStr),
              OutEvent.quit] := by
  have h := c2_guarded_failure_points envCreateErr boomStr
  have h1 : (runScript envCreateErr).outcome = Outcome.quitHandled boomStr :=
    h.1.mpr ⟨rfl, ⟨0, keyboardSettings, by decide, rfl⟩, Or.inl rfl⟩
  exact ⟨h1, h.2 h1⟩

/-- C3: any device string outside the recognized set makes the dispatch yield
the ValueError immediately, and a run so configured ends with that error
uncaught right after window creation: no trigger object is constructed, no
handler intervenes, and the script terminates. -/
theorem c3_unknown_port_raises (s : String) (d : ℤ)
    (hs : s ∉ recognizedPortTypes) :
    selectMRSettings s d = Except.error portErrMsg ∧
    ∀ env : Env, env.dlgOK = true → env.triggering = s →
      pyInt env.skipRaw = some d →
      runScript env =
        { events := [OutEvent.showDialog, OutEvent.createWindow],
          pendingLogs := [], outcome := Outcome.uncaught portErrMsg } := by
  have hmain : selectMRSettings s d = Except.error portErrMsg := by
    simp [recognizedPortTypes] at hs
    obtain ⟨h1, h2, h3, h4, h5, h6⟩ := hs
    simp [selectMRSettings, h1, h2, h3, h4, h5, h6]
  refine ⟨hmain, ?_⟩
  intro env he1 he2 he3
  have hm2 : selectMRSettings env.triggering d = Except.error portErrMsg := by
    rw [he2]
    exact hmain
  simp [runScript, he1, he3, hm2]

/-- Witness for C3: the unrecognized device string foo. -/
theorem c3_unknown_port_raises_witness :
    selectMRSettings fooStr 0 = Except.error portErrMsg ∧
    runScript envUnknown =
      { events := [OutEvent.showDialog, OutEvent.createWindow],
        pendingLogs := [], outcome := Outcome.uncaught portErrMsg } := by
  have h := c3_unknown_port_raises fooStr 0 (by decide)
  exact ⟨h.1, h.2 envUnknown rfl rfl (by decide)⟩

/-- C6 counterexample: the dispatch recognizes six pairwise distinct device
strings, each mapped to a configuration, so it is not a five-way lookup with
a default error branch: it is six-way. -/
theorem c6_counterexample :
    recognizedPortTypes.Nodup ∧ recognizedPortTypes.length ≠ 5 ∧
    recognizedPortTypes.all (fun s => exceptOk (selectMRSettings s 0)) = true := by
  decide

/-- C6 (amended): the decision logic selecting the device configuration from
the device-type string is a six-way lookup: exactly the six recognized
strings succeed, every other string falls to the default error branch. -/
theorem c6_six_way_lookup (s : String) (d : ℤ) :
    (exceptOk (selectMRSettings s d) = true ↔ s ∈ recognizedPortTypes) ∧
    (s ∉ recognizedPortTypes →
      selectMRSettings s d = Except.error portErrMsg) ∧
    recognizedPortTypes.length = 6 := by
  have herr : s ∉ recognizedPortTypes →
      selectMRSettings s d = Except.error portErrMsg := by
    intro hs
    simp [recognizedPortTypes] at hs
    obtain ⟨h1, h2, h3, h4, h5, h6⟩ := hs
    simp [selectMRSettings, h1, h2, h3, h4, h5, h6]
  refine ⟨⟨?_, ?_⟩, herr, rfl⟩
  · intro hok
    by_contra hs
    rw [herr hs] at hok
    simp [exceptOk] at hok
  · intro hs
    simp [recognizedPortTypes] at hs
    rcases hs with rfl | rfl | rfl | rfl | rfl | rfl <;> rfl

/-- Witness for the amended C6: the unrecognized string foo falls to the
default error branch. -/
theorem c6_six_way_lookup_witness :
    selectMRSettings fooStr 0 = Except.error portErrMsg :=
  (c6_six_way_lookup fooStr 0).2.1 (by decide)

/-- C5: after the polling loop of a successful run exits with at least one
collected inter-trigger delta beyond the sliced-off first entry, the script
logs the mean, the standard deviation (recorded through its square), the
maximum and the minimum of the deltas, flushes them, plots their histogram,
and shuts down. -/
theorem c5_summary_stats (env : Env) (d : ℤ) (ms : MRSettings)
    (x : ℚ) (xs : List ℚ)
    (h1 : env.dlgOK = true) (h2 : pyInt env.skipRaw = some d)
    (h3 : selectMRSettings env.triggering d = Except.ok ms)
    (h4 : env.createOpenErr = none) (h5 : env.waitErr = none)
    (h6 : (((runLoop (initLoopState env.firstTriggerTime env.waitReturns)
            env.steps).1).deltas).drop 1 = x :: xs) :
    ∃ pre n, (runScript env).events =
      pre ++ [OutEvent.logFlushed
                [LogEntry.meanDelta (npMean (x :: xs)),
                 LogEntry.stdDeltaSq (npVar (x :: xs)),
                 LogEntry.maxDelta (xs.foldl max x),
                 LogEntry.minDelta (xs.foldl min x)],
              OutEvent.plotHist (x :: xs) n,
              OutEvent.closedTrigger, OutEvent.closedWindow,
              OutEvent.quit] := by
  refine ⟨[OutEvent.showDialog, OutEvent.createWindow, OutEvent.createdTrigger,
           OutEvent.drawStim waitStimText, OutEvent.printed waitingMsg,
           OutEvent.waitedForTrigger d, OutEvent.logFlushed []],
          (((runLoop (initLoopState env.firstTriggerTime env.waitReturns)
              env.steps).1).deltas).length, ?_⟩
  simp [runScript, h1, h2, h3, h4, h5, h6]

/-- The delta array collected in the envStats run: the zero first entry and
the one-second gap to the second trigger. -/
theorem envStats_deltas :
    ((runLoop (initLoopState envStats.firstTriggerTime envStats.waitReturns)
        envStats.steps).1).deltas = [0, 1] := by
  show ((runLoop (initLoopState 2 true)
      [mkTrigStep 3, idleStep, escStep]).1).deltas = [0, 1]
  norm_num [runLoop, exitCond, loopIter, initLoopState, mkTrigStep, idleStep,
    escStep]

/-- Witness for C5: a run observing one further trigger one second after the
first collects the deltas [0, 1] and reports statistics of the sliced [1]. -/
theorem c5_summary_stats_witness :
    ∃ pre n, (runScript envStats).events =
      pre ++ [OutEvent.logFlushed
                [LogEntry.meanDelta (npMean [1]),
                 LogEntry.stdDeltaSq (npVar [1]),
                 LogEntry.maxDelta (([] : List ℚ).foldl max 1),
                 LogEntry.minDelta (([] : List ℚ).foldl min 1)],
              OutEvent.plotHist [1] n,
              OutEvent.closedTrigger, OutEvent.closedWindow,
              OutEvent.quit] :=
  c5_summary_stats envStats 0 keyboardSettings 1 []
    rfl (by decide) rfl rfl rfl (by rw [envStats_deltas]; rfl)

/-- C7: the startup dialog exposes exactly two fields, the device dropdown
over the fixed six-element choice set and the integer scan-skip count; the
skip value the run passes to the wait call is the integer conversion of the
raw dialog string. -/
theorem c7_dialog_fields :
    expInfo.length = 2 ∧
    expInfo.lookup trigKey =
      some (DlgField.choices
        [kbStr, serialStr, parallelStr, cedrusStr, launchscanStr, dummyStr]) ∧
    expInfo.lookup skipKey = some (DlgField.intDefault 0) ∧
    ∀ (env : Env) (d : ℤ), env.dlgOK = true → pyInt env.skipRaw = some d →
      env.createOpenErr = none →
      exceptOk (selectMRSettings env.triggering d) = true →
      OutEvent.waitedForTrigger d ∈ (runScript env).events := by
  refine ⟨rfl, rfl, rfl, ?_⟩
  intro env d h1 h2 h3 h4
  cases hsel : selectMRSettings env.triggering d with
  | error m =>
    rw [hsel] at h4
    simp [exceptOk] at h4
  | ok ms =>
    cases hw : env.waitErr with
    | some e => simp [runScript, h1, h2, hsel, h3, hw]
    | none =>
      cases harr : (((runLoop
          (initLoopState env.firstTriggerTime env.waitReturns)
          env.steps).1).deltas).drop 1 with
      | nil => simp [runScript, h1, h2, hsel, h3, hw, harr]
      | cons x xs => simp [runScript, h1, h2, hsel, h3, hw, harr]

/-- Witness for C7: a raw scan-skip string of three is converted to the
integer three before the wait call. -/
theorem c7_dialog_fields_witness :
    expInfo.length = 2 ∧
    expInfo.lookup trigKey =
      some (DlgField.choices
        [kbStr, serialStr, parallelStr, cedrusStr, launchscanStr, dummyStr]) ∧
    expInfo.lookup skipKey = some (DlgField.intDefault 0) ∧
    OutEvent.waitedForTrigger 3 ∈ (runScript envSkip3).events := by
  have h := c7_dialog_fields
  exact ⟨h.1, h.2.1, h.2.2.1,
    h.2.2.2 envSkip3 3 rfl (by decide) rfl (by decide)⟩

/-- C8: in a successful run whose loop enters its first iteration with the
wait-returned trigger pending, the first entry of the delta array is exactly
zero, since prevTriggerTime was initialized to the current trigger time; the
logged statistics and the histogram data use the array sliced from index
one, while the histogram bin-count expression receives the full unsliced
array length. -/
theorem c8_first_delta_zero_and_slicing (env : Env) (d : ℤ) (ms : MRSettings)
    (s : LoopStep) (rest : List LoopStep)
    (h1 : env.dlgOK = true) (h2 : pyInt env.skipRaw = some d)
    (h3 : selectMRSettings env.triggering d = Except.ok ms)
    (h4 : env.createOpenErr = none) (h5 : env.waitErr = none)
    (h6 : env.waitReturns = true)
    (h7 : env.steps = s :: rest) (h8 : exitCond s = false) :
    (((runLoop (initLoopState env.firstTriggerTime env.waitReturns)
        env.steps).1).deltas).head? = some 0 ∧
    ∀ x xs,
      (((runLoop (initLoopState env.firstTriggerTime env.waitReturns)
          env.steps).1).deltas).drop 1 = x :: xs →
      ∃ pre, (runScript env).events =
        pre ++ [OutEvent.logFlushed
                  [LogEntry.meanDelta (npMean (x :: xs)),
                   LogEntry.stdDeltaSq (npVar (x :: xs)),
                   LogEntry.maxDelta (xs.foldl max x),
                   LogEntry.minDelta (xs.foldl min x)],
                OutEvent.plotHist (x :: xs)
                  ((((runLoop (initLoopState env.firstTriggerTime
                      env.waitReturns) env.steps).1).deltas).length),
                OutEvent.closedTrigger, OutEvent.closedWindow,
                OutEvent.quit] := by
  constructor
  · rw [h6, h7]
    have hstep : runLoop (initLoopState env.firstTriggerTime true) (s :: rest)
        = runLoop (loopIter (initLoopState env.firstTriggerTime true) s) rest := by
      simp [runLoop, h8]
    rw [hstep]
    obtain ⟨suf, hsuf⟩ := runLoop_deltas_extend rest
      (loopIter (initLoopState env.firstTriggerTime true) s)
    rw [hsuf]
    simp [loopIter, initLoopState]
  · intro x xs hx
    refine ⟨[OutEvent.showDialog, OutEvent.createWindow, OutEvent.createdTrigger,
             OutEvent.drawStim waitStimText, OutEvent.printed waitingMsg,
             OutEvent.waitedForTrigger d, OutEvent.logFlushed []], ?_⟩
    simp [runScript, h1, h2, h3, h4, h5, hx]

/-- Witness for C8: the run collecting the deltas [0, 1] has first entry
zero, statistics over the sliced [1], and a bin-count argument equal to the
full length two. -/
theorem c8_first_delta_zero_and_slicing_witness :
    (((runLoop (initLoopState envStats.firstTriggerTime envStats.waitReturns)
        envStats.steps).1).deltas).head? = some 0 ∧
    ∃ pre, (runScript envStats).events =
      pre ++ [OutEvent.logFlushed
                [LogEntry.meanDelta (npMean [1]),
                 LogEntry.stdDeltaSq (npVar [1]),
                 LogEntry.maxDelta (([] : List ℚ).foldl max 1),
                 LogEntry.minDelta (([] : List ℚ).foldl min 1)],
              OutEvent.plotHist [1]
                ((((runLoop (initLoopState envStats.firstTriggerTime
                    envStats.waitReturns) envStats.steps).1).deltas).length),
              OutEvent.closedTrigger, OutEvent.closedWindow,
              OutEvent.quit] := by
  have h := c8_first_delta_zero_and_slicing envStats 0 keyboardSettings
    (mkTrigStep 3) [idleStep, escStep]
    rfl (by decide) rfl rfl rfl rfl rfl (by exact exitCond_mkTrigStep 3)
  exact ⟨h.1, h.2 1 [] (by rw [envStats_deltas]; rfl)⟩

/-- C9: in a successful run whose loop ends with fewer than two collected
entries, the sliced delta array is empty: the mean and standard deviation
lines are buffered as nan but never flushed, the max reduction raises an
uncaught error, and neither the summary output nor the histogram is ever
produced. -/
theorem c9_empty_delta_uncaught (env : Env) (d : ℤ) (ms : MRSettings)
    (h1 : env.dlgOK = true) (h2 : pyInt env.skipRaw = some d)
    (h3 : selectMRSettings env.triggering d = Except.ok ms)
    (h4 : env.createOpenErr = none) (h5 : env.waitErr = none)
    (h6 : (((runLoop (initLoopState env.firstTriggerTime env.waitReturns)
            env.steps).1).deltas).drop 1 = []) :
    (runScript env).outcome = Outcome.uncaught reduceErrMsg ∧
    (runScript env).pendingLogs =
      [LogEntry.meanDelta none, LogEntry.stdDeltaSq none] ∧
    (∀ data n, OutEvent.plotHist data n ∉ (runScript env).events) ∧
    (∀ entries, OutEvent.logFlushed entries ∈ (runScript env).events →
      entries = []) := by
  have he : runScript env =
      { events := [OutEvent.showDialog, OutEvent.createWindow,
                   OutEvent.createdTrigger, OutEvent.drawStim waitStimText,
                   OutEvent.printed waitingMsg, OutEvent.waitedForTrigger d,
                   OutEvent.logFlushed []],
        pendingLogs := [LogEntry.meanDelta none, LogEntry.stdDeltaSq none],
        outcome := Outcome.uncaught reduceErrMsg } := by
    simp [runScript, h1, h2, h3, h4, h5, h6]
  refine ⟨by rw [he], by rw [he], ?_, ?_⟩
  · intro data n
    rw [he]
    simp
  · intro entries hmem
    rw [he] at hmem
    simpa using hmem

/-- Witness for C9: a run whose loop is ended by escape before any trigger is
processed collects nothing, crashes at the max reduction, and produces no
summary output and no histogram. -/
theorem c9_empty_delta_uncaught_witness :
    (runScript envEmpty).outcome = Outcome.uncaught reduceErrMsg ∧
    (runScript envEmpty).pendingLogs =
      [LogEntry.meanDelta none, LogEntry.stdDeltaSq none] ∧
    OutEvent.plotHist [] 0 ∉ (runScript envEmpty).events := by
  have h := c9_empty_delta_uncaught envEmpty 0 keyboardSettings
    rfl (by decide) rfl rfl rfl (by decide)
  exact ⟨h.1, h.2.1, h.2.2.1 [] 0⟩

end ScannerTriggerDemo
